import Mathlib

/-!
Verification of the JSON-to-Excel test-case normalizer in
src/locuststudy/test1.py (class JSONToExcelTool).

The Python values handled by the tool are JSON-shaped: the input is parsed
with json.loads and then traversed with isinstance checks for dict, list and
str. We embed those values as the inductive type Json below. Numbers are
modelled as integers (no claim under verification involves non-integer
numbers). Python dicts are modelled as association lists with unique keys,
built by the parser with dict insertion semantics (a repeated key replaces
the earlier value in place), and key lookup is first-occurrence lookup.
-/

inductive Json where
  | null : Json
  | bool (b : Bool) : Json
  | num (n : Int) : Json
  | str (s : String) : Json
  | arr (items : List Json) : Json
  | obj (entries : List (String × Json)) : Json

/-- Python dict.get(key, default), over an association list: the value at the
first occurrence of the key, or the default when the key is absent. -/
def Json.get (kvs : List (String × Json)) (k : String) (dflt : Json) : Json :=
  match kvs.lookup k with
  | some v => v
  | none => dflt

/-- The indicator keys of JSONToExcelTool._is_test_case (test1.py line 162). -/
def test_case_indicators : List String := ["id", "case_id", "title", "name", "steps"]

/-- JSONToExcelTool._is_test_case (test1.py lines 159-163): a dict is a test
case when it contains at least one indicator key. -/
def is_test_case (entries : List (String × Json)) : Bool :=
  test_case_indicators.any (fun k => (entries.lookup k).isSome)

mutual
/-- JSONToExcelTool._deep_search_test_cases (test1.py lines 140-157): a dict
that is a test case is collected and not descended into; otherwise its values
are searched recursively; every element of a list is searched; scalars
contribute nothing. -/
def deep_search_test_cases : Json → List Json
  | Json.obj entries =>
      if is_test_case entries then [Json.obj entries]
      else deep_search_values entries
  | Json.arr items => deep_search_items items
  | _ => []

/-- The loop `for value in data.values()` of _deep_search_test_cases. -/
def deep_search_values : List (String × Json) → List Json
  | [] => []
  | kv :: rest => deep_search_test_cases kv.2 ++ deep_search_values rest

/-- The loop `for item in data` of _deep_search_test_cases. -/
def deep_search_items : List Json → List Json
  | [] => []
  | x :: rest => deep_search_test_cases x ++ deep_search_items rest
end

/-- The candidate container keys of _extract_test_cases (test1.py line 127),
in declared order. -/
def possible_keys : List String := ["test_cases", "cases", "testCases", "testcases", "items"]

/-- The key loop of JSONToExcelTool._extract_test_cases (test1.py lines
128-131): the first key, in declared order, that is present in the dict with
a list value; its list is selected and the loop breaks. -/
def find_keyed_list (kvs : List (String × Json)) : List String → Option (List Json)
  | [] => none
  | k :: rest =>
      match kvs.lookup k with
      | some (Json.arr items) => some items
      | _ => find_keyed_list kvs rest

/-- JSONToExcelTool._extract_test_cases (test1.py lines 118-138). A list is
returned as is; for a dict, the first candidate key holding a list is used,
and when the result so far is falsy (no key matched, or the matched list is
empty) the deep search runs; any other input leaves the initial empty list. -/
def extract_test_cases : Json → List Json
  | Json.arr items => items
  | Json.obj kvs =>
      match find_keyed_list kvs possible_keys with
      | some items =>
          if items.isEmpty then deep_search_test_cases (Json.obj kvs) else items
      | none => deep_search_test_cases (Json.obj kvs)
  | _ => []

mutual
/-- Python repr() restricted to JSON-shaped values, as produced by f-string
interpolation of non-string containers (repr is only reached for values no
claim depends on; scalars follow Python exactly). -/
def py_repr : Json → String
  | Json.null => "None"
  | Json.bool true => "True"
  | Json.bool false => "False"
  | Json.num n => toString n
  | Json.str s => "\x27" ++ s ++ "\x27"
  | Json.arr items => "[" ++ py_repr_items items ++ "]"
  | Json.obj kvs => "\x7b" ++ py_repr_entries kvs ++ "\x7d"

/-- Comma-joined repr of list elements. -/
def py_repr_items : List Json → String
  | [] => ""
  | [x] => py_repr x
  | x :: rest => py_repr x ++ ", " ++ py_repr_items rest

/-- Comma-joined repr of dict entries. -/
def py_repr_entries : List (String × Json) → String
  | [] => ""
  | [kv] => "\x27" ++ kv.1 ++ "\x27: " ++ py_repr kv.2
  | kv :: rest => "\x27" ++ kv.1 ++ "\x27: " ++ py_repr kv.2 ++ ", " ++ py_repr_entries rest
end

/-- Python str() as applied by f-string interpolation: a string passes
through unchanged, anything else renders as its repr. -/
def py_str : Json → String
  | Json.str s => s
  | j => py_repr j

/-- The loop `for i, step in enumerate(steps, 1)` of JSONToExcelTool._format_steps
(test1.py lines 242-247): a dict element contributes its action (or step)
field, a string element contributes itself, anything else appends no line;
the counter advances on every element. -/
def format_steps_loop : Nat → List Json → List String
  | _, [] => []
  | i, Json.obj kvs :: rest =>
      (toString i ++ ". " ++ py_str (Json.get kvs "action" (Json.get kvs "step" (Json.str ""))))
        :: format_steps_loop (i + 1) rest
  | i, Json.str s :: rest =>
      (toString i ++ ". " ++ s) :: format_steps_loop (i + 1) rest
  | i, _ :: rest => format_steps_loop (i + 1) rest

/-- JSONToExcelTool._format_steps (test1.py lines 238-251). -/
def format_steps : Json → String
  | Json.arr items => String.intercalate "\n" (format_steps_loop 1 items)
  | Json.str s => s
  | _ => ""

/-- The comprehension over enumerate(expected) of _format_expected
(test1.py line 256), rendering element i as line i+1. -/
def format_expected_loop : Nat → List Json → List String
  | _, [] => []
  | i, e :: rest => (toString (i + 1) ++ ". " ++ py_str e) :: format_expected_loop (i + 1) rest

/-- JSONToExcelTool._format_expected (test1.py lines 253-259). -/
def format_expected : Json → String
  | Json.arr items => String.intercalate "\n" (format_expected_loop 0 items)
  | Json.str s => s
  | _ => ""

/-- JSONToExcelTool._format_test_data (test1.py lines 261-267). -/
def format_test_data : Json → String
  | Json.obj kvs =>
      String.intercalate "\n" (kvs.map (fun kv => kv.1 ++ ": " ++ py_str kv.2))
  | Json.str s => s
  | _ => ""

/-- The fixed column labels of _prepare_test_case_row, in declared order. -/
def row_columns : List String :=
  ["用例ID", "用例名称", "模块", "优先级", "前置条件", "测试步骤",
   "预期结果", "测试数据", "状态", "创建人", "创建时间", "备注"]

/-- JSONToExcelTool._prepare_test_case_row (test1.py lines 218-236). The
Python code calls test_case.get(...), which raises AttributeError when the
record is not a dict; that exception is modelled as an error value. Column
values are the raw looked-up values except the three formatted columns,
which hold the formatted strings. -/
def prepare_test_case_row (test_case : Json) : Except String (List (String × Json)) :=
  match test_case with
  | Json.obj kvs =>
      Except.ok [
        ("用例ID", Json.get kvs "id" (Json.get kvs "case_id" (Json.str ""))),
        ("用例名称", Json.get kvs "title" (Json.get kvs "name" (Json.str ""))),
        ("模块", Json.get kvs "module" (Json.get kvs "category" (Json.str ""))),
        ("优先级", Json.get kvs "priority" (Json.str "")),
        ("前置条件", Json.get kvs "preconditions" (Json.str "")),
        ("测试步骤", Json.str (format_steps (Json.get kvs "steps" (Json.arr [])))),
        ("预期结果", Json.str (format_expected (Json.get kvs "expected" (Json.str "")))),
        ("测试数据", Json.str (format_test_data (Json.get kvs "test_data" (Json.obj [])))),
        ("状态", Json.get kvs "status" (Json.str "未执行")),
        ("创建人", Json.get kvs "author" (Json.str "")),
        ("创建时间", Json.get kvs "created_date" (Json.str "")),
        ("备注", Json.get kvs "remarks" (Json.str ""))
      ]
  | _ => Except.error "AttributeError: object has no attribute get"

/-- The row-preparation loop shared by _generate_excel (test1.py lines
168-171) and _generate_csv (lines 200-203): rows are appended in order and
an exception from any record aborts the whole loop with no rows kept. -/
def prepare_rows : List Json → Except String (List (List (String × Json)))
  | [] => Except.ok []
  | c :: rest =>
      match prepare_test_case_row c with
      | Except.error e => Except.error e
      | Except.ok row =>
          match prepare_rows rest with
          | Except.error e => Except.error e
          | Except.ok rows => Except.ok (row :: rows)

def quote_char : Char := Char.ofNat 34

def backslash_char : Char := Char.ofNat 92

def lbrace_char : Char := Char.ofNat 123

def rbrace_char : Char := Char.ofNat 125

/-- The whitespace characters skipped between JSON tokens. -/
def json_ws : List Char → List Char
  | c :: rest =>
      if c = ' ' ∨ c = '\t' ∨ c = '\n' ∨ c = '\r' then json_ws rest else c :: rest
  | [] => []

/-- The single-character string escapes of the JSON grammar. -/
def json_escape_char (c : Char) : Option Char :=
  if c = quote_char then some quote_char
  else if c = backslash_char then some backslash_char
  else if c = '/' then some '/'
  else if c = 'b' then some (Char.ofNat 8)
  else if c = 'f' then some (Char.ofNat 12)
  else if c = 'n' then some '\n'
  else if c = 'r' then some '\r'
  else if c = 't' then some '\t'
  else none

/-- Value of one hexadecimal digit. -/
def hex_val (c : Char) : Option Nat :=
  if c.isDigit then some (c.toNat - 48)
  else if 'a' ≤ c ∧ c ≤ 'f' then some (c.toNat - 87)
  else if 'A' ≤ c ∧ c ≤ 'F' then some (c.toNat - 55)
  else none

/-- Body of a JSON string literal, after the opening quote: the decoded
characters and the remainder after the closing quote. -/
def parse_string_chars : List Char → Except String (List Char × List Char)
  | [] => Except.error "Unterminated string"
  | c :: rest =>
      if c = quote_char then Except.ok ([], rest)
      else if c = backslash_char then
        match rest with
        | [] => Except.error "Unterminated string"
        | e :: rest2 =>
            if e = 'u' then
              match rest2 with
              | h1 :: h2 :: h3 :: h4 :: rest3 =>
                  match hex_val h1, hex_val h2, hex_val h3, hex_val h4 with
                  | some a, some b, some c2, some d =>
                      match parse_string_chars rest3 with
                      | Except.ok (cs, r) =>
                          Except.ok (Char.ofNat (((a * 16 + b) * 16 + c2) * 16 + d) :: cs, r)
                      | Except.error err => Except.error err
                  | _, _, _, _ => Except.error "Invalid unicode escape"
              | _ => Except.error "Invalid unicode escape"
            else
              match json_escape_char e with
              | some c2 =>
                  match parse_string_chars rest2 with
                  | Except.ok (cs, r) => Except.ok (c2 :: cs, r)
                  | Except.error err => Except.error err
              | none => Except.error "Invalid escape"
      else
        match parse_string_chars rest with
        | Except.ok (cs, r) => Except.ok (c :: cs, r)
        | Except.error err => Except.error err

/-- Longest leading run of decimal digits. -/
def take_digits : List Char → List Char × List Char
  | [] => ([], [])
  | c :: rest =>
      if c.isDigit then
        let p := take_digits rest
        (c :: p.1, p.2)
      else ([], c :: rest)

/-- Numeric value of a digit run. -/
def digits_val (ds : List Char) : Nat :=
  ds.foldl (fun acc c => acc * 10 + (c.toNat - 48)) 0

/-- A JSON number token. Non-integer numerals (fraction or exponent) are
outside the integer model of Json.num and are rejected. -/
def parse_number (cs : List Char) : Except String (Json × List Char) :=
  let p : Bool × List Char :=
    match cs with
    | c :: rest => if c = '-' then (true, rest) else (false, cs)
    | [] => (false, [])
  match take_digits p.2 with
  | ([], _) => Except.error "Expecting value"
  | (ds, rest) =>
      match rest with
      | c :: _ =>
          if c = '.' ∨ c = 'e' ∨ c = 'E' then
            Except.error "non-integer number not modelled"
          else
            Except.ok (Json.num (if p.1 then -(digits_val ds : Int) else (digits_val ds : Int)), rest)
      | [] =>
          Except.ok (Json.num (if p.1 then -(digits_val ds : Int) else (digits_val ds : Int)), rest)

/-- Python dict insertion: a repeated key replaces the stored value in
place, a new key is appended at the end. -/
def dict_insert (kvs : List (String × Json)) (k : String) (v : Json) : List (String × Json) :=
  match kvs with
  | [] => [(k, v)]
  | (k2, v2) :: rest => if k2 = k then (k2, v) :: rest else (k2, v2) :: dict_insert rest k v

mutual
/-- Recursive-descent JSON value. The fuel argument bounds nesting depth and
is chosen larger than the input length at the top entry, so it never runs
out on inputs the grammar accepts. -/
def parse_value : Nat → List Char → Except String (Json × List Char)
  | 0, _ => Except.error "Exceeded nesting fuel"
  | Nat.succ fuel, cs =>
      match json_ws cs with
      | [] => Except.error "Expecting value"
      | c :: rest =>
          if c = quote_char then
            match parse_string_chars rest with
            | Except.ok (chars, r) => Except.ok (Json.str (String.mk chars), r)
            | Except.error e => Except.error e
          else if c = '[' then
            match json_ws rest with
            | ']' :: r2 => Except.ok (Json.arr [], r2)
            | cs2 => parse_array_rest fuel [] cs2
          else if c = lbrace_char then
            match json_ws rest with
            | c2 :: r2 =>
                if c2 = rbrace_char then Except.ok (Json.obj [], r2)
                else parse_object_rest fuel [] (c2 :: r2)
            | [] => Except.error "Expecting property name enclosed in double quotes"
          else if c = 't' then
            match rest with
            | 'r' :: 'u' :: 'e' :: r => Except.ok (Json.bool true, r)
            | _ => Except.error "Expecting value"
          else if c = 'f' then
            match rest with
            | 'a' :: 'l' :: 's' :: 'e' :: r => Except.ok (Json.bool false, r)
            | _ => Except.error "Expecting value"
          else if c = 'n' then
            match rest with
            | 'u' :: 'l' :: 'l' :: r => Except.ok (Json.null, r)
            | _ => Except.error "Expecting value"
          else if c = '-' ∨ c.isDigit then parse_number (c :: rest)
          else Except.error "Expecting value"

/-- Elements of a non-empty JSON array, after the opening bracket. -/
def parse_array_rest : Nat → List Json → List Char → Except String (Json × List Char)
  | 0, _, _ => Except.error "Exceeded nesting fuel"
  | Nat.succ fuel, acc, cs =>
      match parse_value fuel cs with
      | Except.error e => Except.error e
      | Except.ok (v, r) =>
          match json_ws r with
          | ',' :: r2 => parse_array_rest fuel (v :: acc) r2
          | ']' :: r2 => Except.ok (Json.arr (v :: acc).reverse, r2)
          | _ => Except.error "Expecting comma delimiter"

/-- Members of a non-empty JSON object, after the opening brace. -/
def parse_object_rest : Nat → List (String × Json) → List Char → Except String (Json × List Char)
  | 0, _, _ => Except.error "Exceeded nesting fuel"
  | Nat.succ fuel, acc, cs =>
      match json_ws cs with
      | c :: rest =>
          if c = quote_char then
            match parse_string_chars rest with
            | Except.error e => Except.error e
            | Except.ok (kchars, r) =>
                match json_ws r with
                | ':' :: r2 =>
                    match parse_value fuel r2 with
                    | Except.error e => Except.error e
                    | Except.ok (v, r3) =>
                        match json_ws r3 with
                        | ',' :: r4 => parse_object_rest fuel (dict_insert acc (String.mk kchars) v) r4
                        | c4 :: r4 =>
                            if c4 = rbrace_char then
                              Except.ok (Json.obj (dict_insert acc (String.mk kchars) v), r4)
                            else Except.error "Expecting comma delimiter"
                        | [] => Except.error "Expecting comma delimiter"
                | _ => Except.error "Expecting colon delimiter"
          else Except.error "Expecting property name enclosed in double quotes"
      | [] => Except.error "Expecting property name enclosed in double quotes"
end

/-- Modelled from the spec: Python's json.loads is external library code;
this follows the JSON grammar it implements (value, then only trailing
whitespace allowed), with numbers restricted to integer literals. -/
def json_loads (s : String) : Except String Json :=
  match parse_value (s.length + 1) s.data with
  | Except.error e => Except.error e
  | Except.ok (v, rest) =>
      match json_ws rest with
      | [] => Except.ok v
      | _ => Except.error "Extra data"

/-- JSONToExcelTool._parse_json_input (test1.py lines 108-116), for string
input: the os.path.exists branch is filesystem I/O and is not modelled (a
JSON literal is not an existing path, so it is parsed as a string). -/
def parse_json_input (json_input : String) : Except String Json :=
  json_loads json_input

/-- The dictionary returned by JSONToExcelTool.run: the success shape of
test1.py lines 90-99 (restricted to the rows behind the serialized payload,
the test case count and the message) or the failure shape of lines 102-106
(error text and fixed message), which carries no rows at all. -/
inductive RunResult where
  | success (rows : List (List (String × Json))) (test_case_count : Nat) (message : String)
  | failure (error : String) (message : String)

/-- JSONToExcelTool.run (test1.py lines 60-106), modelled up to row
preparation: spreadsheet/CSV serialization, styling and base64 encoding are
delegated to external libraries and not modelled; both output formats run
the same row loop first. The try/except of lines 71-106 catches every
exception raised while parsing or projecting and returns the failure
dictionary of lines 102-106. -/
def run (json_input : String) : RunResult :=
  match parse_json_input json_input with
  | Except.error e => RunResult.failure e "转换失败"
  | Except.ok data =>
      match prepare_rows (extract_test_cases data) with
      | Except.error e => RunResult.failure e "转换失败"
      | Except.ok rows =>
          RunResult.success rows (extract_test_cases data).length
            ("成功转换 " ++ toString (extract_test_cases data).length ++ " 个测试用例")

/-- A record reachable from a value by descending only through non-matching
wrapper objects and through sequence elements, ending at an object the
classifier accepts; this is the search discipline the deep-search rule
describes. -/
inductive ReachesRecord : Json → Json → Prop where
  | here (entries : List (String × Json)) :
      is_test_case entries = true → ReachesRecord (Json.obj entries) (Json.obj entries)
  | through_obj (entries : List (String × Json)) (kv : String × Json) (r : Json) :
      is_test_case entries = false → kv ∈ entries → ReachesRecord kv.2 r →
      ReachesRecord (Json.obj entries) r
  | through_arr (items : List Json) (x r : Json) :
      x ∈ items → ReachesRecord x r → ReachesRecord (Json.arr items) r

/-- The text one step element contributes to its line: the action (or step)
field of a dict element, a string element itself. -/
def step_text : Json → String
  | Json.obj kvs => py_str (Json.get kvs "action" (Json.get kvs "step" (Json.str "")))
  | Json.str s => s
  | _ => ""

/-- The value an exported row holds under a given column label; none when
the record is not a dict. -/
def row_field (kvs : List (String × Json)) (col : String) : Option Json :=
  match prepare_test_case_row (Json.obj kvs) with
  | Except.ok row => row.lookup col
  | Except.error _ => none

theorem deep_search_values_mem (entries : List (String × Json)) (kv : String × Json)
    (h : kv ∈ entries) :
    ∀ r ∈ deep_search_test_cases kv.2, r ∈ deep_search_values entries := by
  induction entries with
  | nil => cases h
  | cons kv2 rest ih =>
      intro r hr
      rw [deep_search_values]
      rcases List.mem_cons.mp h with h1 | h2
      · subst h1
        exact List.mem_append_left _ hr
      · exact List.mem_append_right _ (ih h2 r hr)

theorem deep_search_items_mem (items : List Json) (x : Json) (h : x ∈ items) :
    ∀ r ∈ deep_search_test_cases x, r ∈ deep_search_items items := by
  induction items with
  | nil => cases h
  | cons y rest ih =>
      intro r hr
      rw [deep_search_items]
      rcases List.mem_cons.mp h with h1 | h2
      · subst h1
        exact List.mem_append_left _ hr
      · exact List.mem_append_right _ (ih h2 r hr)

theorem reaches_record_mem (j r : Json) (h : ReachesRecord j r) :
    r ∈ deep_search_test_cases j := by
  induction h with
  | here entries he => simp [deep_search_test_cases, he]
  | through_obj entries kv r hf hm _ ih =>
      rw [deep_search_test_cases, hf]
      simpa using deep_search_values_mem entries kv hm r ih
  | through_arr items x r hm _ ih =>
      rw [deep_search_test_cases]
      exact deep_search_items_mem items x hm r ih

theorem find_keyed_list_mem (kvs : List (String × Json)) :
    ∀ keys items, find_keyed_list kvs keys = some items →
      ∃ k, k ∈ keys ∧ kvs.lookup k = some (Json.arr items) := by
  intro keys
  induction keys with
  | nil => intro items h; cases h
  | cons k rest ih =>
      intro items h
      rw [find_keyed_list] at h
      cases hk : kvs.lookup k with
      | none =>
          rw [hk] at h
          rcases ih items h with ⟨k2, hk2, hl⟩
          exact ⟨k2, List.mem_cons_of_mem _ hk2, hl⟩
      | some v =>
          cases v with
          | arr l =>
              rw [hk] at h
              cases h
              exact ⟨k, List.mem_cons_self _ _, hk⟩
          | null =>
              rw [hk] at h
              rcases ih items h with ⟨k2, hk2, hl⟩
              exact ⟨k2, List.mem_cons_of_mem _ hk2, hl⟩
          | bool b =>
              rw [hk] at h
              rcases ih items h with ⟨k2, hk2, hl⟩
              exact ⟨k2, List.mem_cons_of_mem _ hk2, hl⟩
          | num n =>
              rw [hk] at h
              rcases ih items h with ⟨k2, hk2, hl⟩
              exact ⟨k2, List.mem_cons_of_mem _ hk2, hl⟩
          | str s =>
              rw [hk] at h
              rcases ih items h with ⟨k2, hk2, hl⟩
              exact ⟨k2, List.mem_cons_of_mem _ hk2, hl⟩
          | obj o =>
              rw [hk] at h
              rcases ih items h with ⟨k2, hk2, hl⟩
              exact ⟨k2, List.mem_cons_of_mem _ hk2, hl⟩

theorem find_keyed_list_skip (kvs : List (String × Json)) (k : String) (rest : List String)
    (h : ∀ items, kvs.lookup k ≠ some (Json.arr items)) :
    find_keyed_list kvs (k :: rest) = find_keyed_list kvs rest := by
  rw [find_keyed_list]
  cases hk : kvs.lookup k with
  | none => rfl
  | some v =>
      cases v with
      | arr l => exact absurd hk (h l)
      | null => rfl
      | bool b => rfl
      | num n => rfl
      | str s => rfl
      | obj o => rfl

theorem prepare_rows_error_of_mem (cases_list : List Json) (j : Json) (hj : j ∈ cases_list)
    (e : String) (he : prepare_test_case_row j = Except.error e) :
    ∃ e2, prepare_rows cases_list = Except.error e2 := by
  induction cases_list with
  | nil => cases hj
  | cons c rest ih =>
      rcases List.mem_cons.mp hj with h1 | h2
      · subst h1
        exact ⟨e, by rw [prepare_rows, he]⟩
      · cases hc : prepare_test_case_row c with
        | error e3 => exact ⟨e3, by rw [prepare_rows, hc]⟩
        | ok row =>
            rcases ih h2 with ⟨e2, h2e⟩
            exact ⟨e2, by rw [prepare_rows, hc, h2e]⟩

/-- C1 counterexample: in an object whose "test_cases" key maps to the empty
sequence, extraction does not return that empty sequence — the deep search
runs and collects a sibling record, so rule 2 does not short-circuit rule 3
for an empty match. -/
theorem C1_counterexample :
    extract_test_cases
        (Json.obj [("test_cases", Json.arr []), ("other", Json.obj [("id", Json.str "x")])])
      = [Json.obj [("id", Json.str "x")]] ∧
    [Json.obj [("id", Json.str "x")]] ≠ ([] : List Json) :=
  ⟨rfl, by simp⟩

/-- C1 (amended): for an object whose "test_cases" key maps to a sequence,
extraction returns exactly that sequence regardless of sibling keys and the
deep search is skipped when the sequence is non-empty; when the matched
sequence is empty, the result is instead the deep structural search of the
whole object. -/
theorem C1_keyed_extraction (kvs : List (String × Json)) (items : List Json)
    (h : kvs.lookup "test_cases" = some (Json.arr items)) :
    (items ≠ [] → extract_test_cases (Json.obj kvs) = items) ∧
    (items = [] → extract_test_cases (Json.obj kvs) = deep_search_test_cases (Json.obj kvs)) := by
  have hfind : find_keyed_list kvs possible_keys = some items := by
    simp [possible_keys, find_keyed_list, h]
  constructor
  · intro hne
    cases items with
    | nil => exact absurd rfl hne
    | cons a rest => simp [extract_test_cases, hfind]
  · intro he
    subst he
    simp [extract_test_cases, hfind]

theorem C1_keyed_extraction_witness :
    extract_test_cases
        (Json.obj [("test_cases", Json.arr [Json.num 1]), ("items", Json.arr [])])
      = [Json.num 1] :=
  (C1_keyed_extraction [("test_cases", Json.arr [Json.num 1]), ("items", Json.arr [])]
    [Json.num 1] rfl).1 (by simp)

/-- C2: an object is classified as a record exactly when it contains at
least one indicator key; every matching object reachable through
non-matching wrapper objects and sequence elements is collected by the deep
search; and a classified record is returned alone, with no descent into its
children. -/
theorem C2_deep_search :
    (∀ entries, is_test_case entries = true ↔
        ∃ k, k ∈ test_case_indicators ∧ (List.lookup k entries).isSome = true) ∧
    (∀ j r, ReachesRecord j r → r ∈ deep_search_test_cases j) ∧
    (∀ entries, is_test_case entries = true →
        deep_search_test_cases (Json.obj entries) = [Json.obj entries]) := by
  refine ⟨?_, ?_, ?_⟩
  · intro entries
    simp [is_test_case, List.any_eq_true]
  · exact reaches_record_mem
  · intro entries h
    simp [deep_search_test_cases, h]

theorem C2_deep_search_witness :
    Json.obj [("id", Json.str "x")] ∈ deep_search_test_cases
      (Json.obj [("w1", Json.obj [("w2", Json.obj [("w3", Json.obj [("id", Json.str "x")])])])]) := by
  refine C2_deep_search.2.1 _ _ ?_
  refine ReachesRecord.through_obj _
    ("w1", Json.obj [("w2", Json.obj [("w3", Json.obj [("id", Json.str "x")])])]) _
    rfl (List.mem_cons_self _ _) ?_
  refine ReachesRecord.through_obj _
    ("w2", Json.obj [("w3", Json.obj [("id", Json.str "x")])]) _
    rfl (List.mem_cons_self _ _) ?_
  refine ReachesRecord.through_obj _
    ("w3", Json.obj [("id", Json.str "x")]) _
    rfl (List.mem_cons_self _ _) ?_
  exact ReachesRecord.here _ rfl

/-- C3: a parse error or a projection error makes run return the structured
failure result (success false, the error text, the fixed failure message,
and by the shape of that result no rows at all); in particular the invalid
JSON text input of the claim yields a failure and nothing escapes run. -/
theorem C3_run_catches :
    (∀ s e, parse_json_input s = Except.error e →
        run s = RunResult.failure e "转换失败") ∧
    (∀ s data e, parse_json_input s = Except.ok data →
        prepare_rows (extract_test_cases data) = Except.error e →
        run s = RunResult.failure e "转换失败") ∧
    (∃ e, run "\x7bnot json" = RunResult.failure e "转换失败") := by
  refine ⟨?_, ?_, ?_⟩
  · intro s e h
    simp [run, h]
  · intro s data e hp hr
    simp [run, hp, hr]
  · exact ⟨"Expecting property name enclosed in double quotes", rfl⟩

theorem C3_run_catches_witness :
    run "\x7bnot json"
      = RunResult.failure "Expecting property name enclosed in double quotes" "转换失败" :=
  C3_run_catches.1 "\x7bnot json" _ rfl

/-- C5: the key loop checks the candidate keys in declared order, stops at
the first key present with a sequence value, skips a key that is absent or
holds a non-sequence, only ever selects one of the five candidate keys, and
in particular picks "cases" over "items" when "test_cases" holds no
sequence. -/
theorem C5_key_priority :
    (∀ (kvs : List (String × Json)) k rest items, kvs.lookup k = some (Json.arr items) →
        find_keyed_list kvs (k :: rest) = some items) ∧
    (∀ (kvs : List (String × Json)) k rest, (∀ items, kvs.lookup k ≠ some (Json.arr items)) →
        find_keyed_list kvs (k :: rest) = find_keyed_list kvs rest) ∧
    (∀ (kvs : List (String × Json)) items, find_keyed_list kvs possible_keys = some items →
        ∃ k, k ∈ possible_keys ∧ kvs.lookup k = some (Json.arr items)) ∧
    (∀ (kvs : List (String × Json)) cases_items items_items,
        (∀ l, kvs.lookup "test_cases" ≠ some (Json.arr l)) →
        kvs.lookup "cases" = some (Json.arr cases_items) →
        kvs.lookup "items" = some (Json.arr items_items) →
        find_keyed_list kvs possible_keys = some cases_items) := by
  refine ⟨?_, ?_, ?_, ?_⟩
  · intro kvs k rest items h
    rw [find_keyed_list, h]
  · intro kvs k rest h
    exact find_keyed_list_skip kvs k rest h
  · intro kvs items h
    exact find_keyed_list_mem kvs possible_keys items h
  · intro kvs cases_items items_items hn hc _hi
    show find_keyed_list kvs ("test_cases" :: ["cases", "testCases", "testcases", "items"]) = _
    rw [find_keyed_list_skip kvs "test_cases" _ hn, find_keyed_list, hc]

theorem C5_key_priority_witness :
    find_keyed_list [("items", Json.arr [Json.num 2]), ("cases", Json.arr [Json.num 1])]
        possible_keys
      = some [Json.num 1] :=
  C5_key_priority.2.2.2 _ [Json.num 1] [Json.num 2]
    (by intro l hl; simp [List.lookup] at hl) rfl rfl

/-- C6: a document that is itself a sequence yields every element as a
candidate record with no filtering, so the extracted record count equals
the sequence length. -/
theorem C6_list_document (items : List Json) :
    extract_test_cases (Json.arr items) = items ∧
      (extract_test_cases (Json.arr items)).length = items.length :=
  ⟨rfl, rfl⟩

theorem format_steps_loop_enum (items : List Json) :
    ∀ i, (∀ x ∈ items, (∃ kvs, x = Json.obj kvs) ∨ (∃ s, x = Json.str s)) →
      format_steps_loop i items =
        (List.enumFrom i items).map (fun p => toString p.1 ++ ". " ++ step_text p.2) := by
  induction items with
  | nil => intro i _; rfl
  | cons x rest ih =>
      intro i h
      have htail := ih (i + 1) (fun y hy => h y (List.mem_cons_of_mem _ hy))
      rcases h x (List.mem_cons_self _ _) with ⟨kvs, rfl⟩ | ⟨s, rfl⟩
      · rw [format_steps_loop, List.enumFrom, List.map_cons, htail]
        rfl
      · rw [format_steps_loop, List.enumFrom, List.map_cons, htail]
        rfl

/-- C4: a sequence of dict-shaped and string steps becomes 1-indexed
newline-joined lines, dict elements contributing their action (or step)
field and string elements themselves; a bare string passes through; any
other shape yields the empty string; and the claimed two-step record
round-trips exactly. -/
theorem C4_steps_formatting :
    (∀ items, (∀ x ∈ items, (∃ kvs, x = Json.obj kvs) ∨ (∃ s, x = Json.str s)) →
        format_steps (Json.arr items) =
          String.intercalate "\n"
            ((List.enumFrom 1 items).map (fun p => toString p.1 ++ ". " ++ step_text p.2))) ∧
    (∀ s, format_steps (Json.str s) = s) ∧
    format_steps Json.null = "" ∧
    (∀ b, format_steps (Json.bool b) = "") ∧
    (∀ n, format_steps (Json.num n) = "") ∧
    (∀ kvs, format_steps (Json.obj kvs) = "") ∧
    format_steps (Json.arr [Json.str "open page", Json.str "click login"])
      = "1. open page\n2. click login" := by
  refine ⟨?_, ?_, rfl, ?_, ?_, ?_, rfl⟩
  · intro items h
    rw [format_steps, format_steps_loop_enum items 1 h]
  · intro s; rfl
  · intro b; rfl
  · intro n; rfl
  · intro kvs; rfl

theorem C4_steps_formatting_witness :
    format_steps (Json.arr [Json.obj [("action", Json.str "go")], Json.str "check"])
      = String.intercalate "\n"
          ((List.enumFrom 1 [Json.obj [("action", Json.str "go")], Json.str "check"]).map
            (fun p => toString p.1 ++ ". " ++ step_text p.2)) :=
  C4_steps_formatting.1 _ (by
    intro x hx
    rcases List.mem_cons.mp hx with rfl | hx2
    · exact Or.inl ⟨_, rfl⟩
    · rcases List.mem_cons.mp hx2 with rfl | hx3
      · exact Or.inr ⟨_, rfl⟩
      · cases hx3)

/-- C7 counterexample: with the id and status keys present but holding
empty strings, the ID column takes the present empty id over the non-empty
case_id, and the status column is the empty string rather than the
localized label — the projection keys on presence, not on non-emptiness. -/
theorem C7_counterexample :
    row_field [("id", Json.str ""), ("case_id", Json.str "X"), ("status", Json.str "")] "用例ID"
        = some (Json.str "") ∧
    row_field [("id", Json.str ""), ("case_id", Json.str "X"), ("status", Json.str "")] "状态"
        = some (Json.str "") :=
  ⟨rfl, rfl⟩

/-- C7 (amended): the columns with alternatives follow a first-key-present
policy — ID is the id field whenever the id key is present (even empty),
otherwise case_id, otherwise empty; Name likewise from title then name;
Module from module then category; Status is the status field whenever the
status key is present (even empty), and the literal localized label exactly
when the key is missing. -/
theorem C7_first_present (kvs : List (String × Json)) :
    ((∀ v, kvs.lookup "id" = some v → row_field kvs "用例ID" = some v) ∧
     (kvs.lookup "id" = none → ∀ v, kvs.lookup "case_id" = some v →
        row_field kvs "用例ID" = some v) ∧
     (kvs.lookup "id" = none → kvs.lookup "case_id" = none →
        row_field kvs "用例ID" = some (Json.str ""))) ∧
    ((∀ v, kvs.lookup "title" = some v → row_field kvs "用例名称" = some v) ∧
     (kvs.lookup "title" = none → ∀ v, kvs.lookup "name" = some v →
        row_field kvs "用例名称" = some v) ∧
     (kvs.lookup "title" = none → kvs.lookup "name" = none →
        row_field kvs "用例名称" = some (Json.str ""))) ∧
    ((∀ v, kvs.lookup "module" = some v → row_field kvs "模块" = some v) ∧
     (kvs.lookup "module" = none → ∀ v, kvs.lookup "category" = some v →
        row_field kvs "模块" = some v) ∧
     (kvs.lookup "module" = none → kvs.lookup "category" = none →
        row_field kvs "模块" = some (Json.str ""))) ∧
    ((∀ v, kvs.lookup "status" = some v → row_field kvs "状态" = some v) ∧
     (kvs.lookup "status" = none → row_field kvs "状态" = some (Json.str "未执行"))) := by
  refine ⟨⟨?_, ?_, ?_⟩, ⟨?_, ?_, ?_⟩, ⟨?_, ?_, ?_⟩, ?_, ?_⟩
  · intro v h
    simp [row_field, prepare_test_case_row, List.lookup, Json.get, h]
  · intro h1 v h2
    simp [row_field, prepare_test_case_row, List.lookup, Json.get, h1, h2]
  · intro h1 h2
    simp [row_field, prepare_test_case_row, List.lookup, Json.get, h1, h2]
  · intro v h
    simp [row_field, prepare_test_case_row, List.lookup, Json.get, h]
  · intro h1 v h2
    simp [row_field, prepare_test_case_row, List.lookup, Json.get, h1, h2]
  · intro h1 h2
    simp [row_field, prepare_test_case_row, List.lookup, Json.get, h1, h2]
  · intro v h
    simp [row_field, prepare_test_case_row, List.lookup, Json.get, h]
  · intro h1 v h2
    simp [row_field, prepare_test_case_row, List.lookup, Json.get, h1, h2]
  · intro h1 h2
    simp [row_field, prepare_test_case_row, List.lookup, Json.get, h1, h2]
  · intro v h
    simp [row_field, prepare_test_case_row, List.lookup, Json.get, h]
  · intro h
    simp [row_field, prepare_test_case_row, List.lookup, Json.get, h]

theorem C7_first_present_witness :
    row_field [] "状态" = some (Json.str "未执行") :=
  (C7_first_present []).2.2.2.2 rfl

/-- C8: every dict-shaped record projects to a row carrying exactly the
twelve fixed column labels in the fixed declared order, whatever fields the
record contains. -/
theorem C8_fixed_columns (kvs : List (String × Json)) (row : List (String × Json))
    (h : prepare_test_case_row (Json.obj kvs) = Except.ok row) :
    row.map Prod.fst = row_columns ∧ row.length = 12 := by
  rw [prepare_test_case_row] at h
  injection h with h2
  subst h2
  exact ⟨rfl, rfl⟩

theorem C8_fixed_columns_witness :
    [("用例ID", Json.str ""), ("用例名称", Json.str ""), ("模块", Json.str ""),
     ("优先级", Json.str ""), ("前置条件", Json.str ""), ("测试步骤", Json.str ""),
     ("预期结果", Json.str ""), ("测试数据", Json.str ""), ("状态", Json.str "未执行"),
     ("创建人", Json.str ""), ("创建时间", Json.str ""),
     ("备注", Json.str "")].map Prod.fst = row_columns ∧
    [("用例ID", Json.str ""), ("用例名称", Json.str ""), ("模块", Json.str ""),
     ("优先级", Json.str ""), ("前置条件", Json.str ""), ("测试步骤", Json.str ""),
     ("预期结果", Json.str ""), ("测试数据", Json.str ""), ("状态", Json.str "未执行"),
     ("创建人", Json.str ""), ("创建时间", Json.str ""),
     ("备注", Json.str "")].length = 12 :=
  C8_fixed_columns [] _ rfl

/-- C9: a record that is not a dict makes row projection fail with an
error, and when any extracted record of a parsed document is not a dict the
whole run returns the failure result — which by its shape carries no rows
for any record, well-formed ones included. -/
theorem C9_non_dict_record :
    (∀ j, (∀ kvs, j ≠ Json.obj kvs) → ∃ e, prepare_test_case_row j = Except.error e) ∧
    (∀ s data j, parse_json_input s = Except.ok data →
        j ∈ extract_test_cases data → (∀ kvs, j ≠ Json.obj kvs) →
        ∃ e, run s = RunResult.failure e "转换失败") := by
  have h1 : ∀ j : Json, (∀ kvs, j ≠ Json.obj kvs) →
      ∃ e, prepare_test_case_row j = Except.error e := by
    intro j hj
    cases j with
    | obj kvs => exact absurd rfl (hj kvs)
    | null => exact ⟨_, rfl⟩
    | bool b => exact ⟨_, rfl⟩
    | num n => exact ⟨_, rfl⟩
    | str s => exact ⟨_, rfl⟩
    | arr items => exact ⟨_, rfl⟩
  refine ⟨h1, ?_⟩
  intro s data j hp hm hj
  rcases h1 j hj with ⟨e, he⟩
  rcases prepare_rows_error_of_mem _ j hm e he with ⟨e2, h2⟩
  exact ⟨e2, by simp [run, hp, h2]⟩

theorem C9_non_dict_record_witness :
    ∃ e, run "[\x7b\"id\": \"a\"\x7d, 5]" = RunResult.failure e "转换失败" :=
  C9_non_dict_record.2 "[\x7b\"id\": \"a\"\x7d, 5]"
    (Json.arr [Json.obj [("id", Json.str "a")], Json.num 5]) (Json.num 5)
    rfl (List.mem_cons_of_mem _ (List.mem_cons_self _ _))
    (fun _ h => Json.noConfusion h)

/-- C10: a step element that is neither a dict nor a string contributes no
line while still advancing the 1-based counter, so the emitted numbers can
be non-contiguous, as on the claimed three-element input. -/
theorem C10_numbering_gaps :
    (∀ i x rest, (∀ kvs, x ≠ Json.obj kvs) → (∀ s, x ≠ Json.str s) →
        format_steps_loop i (x :: rest) = format_steps_loop (i + 1) rest) ∧
    format_steps (Json.arr [Json.str "a", Json.num 7, Json.str "b"]) = "1. a\n3. b" := by
  constructor
  · intro i x rest h1 h2
    cases x with
    | obj kvs => exact absurd rfl (h1 kvs)
    | str s => exact absurd rfl (h2 s)
    | null => rfl
    | bool b => rfl
    | num n => rfl
    | arr items => rfl
  · rfl

theorem C10_numbering_gaps_witness :
    format_steps_loop 2 [Json.num 7, Json.str "b"] = format_steps_loop 3 [Json.str "b"] :=
  C10_numbering_gaps.1 2 (Json.num 7) [Json.str "b"]
    (fun _ h => Json.noConfusion h) (fun _ h => Json.noConfusion h)
